import Mathlib

/-!
Shallow embedding of `src/app.py` (a Streamlit sheet-music-to-MP3 app) and
proofs about it.  External libraries (PIL, pdf2image, oemer, music21,
FluidSynth, pydub, requests) are modelled as function parameters; the glue
code of `app.py` is translated faithfully into Lean definitions.
-/

namespace App

/-- Python exceptions that appear in `app.py`. -/
inductive PyExc where
  | systemExit (code : Option Int)
  | runtimeError (msg : String)
  | fileNotFound (msg : String)
  | valueError (msg : String)
  | other (msg : String)
deriving DecidableEq, Repr

/-- Result of running a piece of Python code: a value or a raised exception. -/
inductive PyResult (α : Type) where
  | ok (a : α)
  | exn (e : PyExc)
deriving DecidableEq, Repr

/-- Python `str(e.code)` for a `SystemExit` code (`sys.exit` allows `None`). -/
def pyStrCode : Option Int → String
  | none => "None"
  | some c => toString c

/-- Python `str(e)` for the exceptions we model. -/
def excMsg : PyExc → String
  | .systemExit c => pyStrCode c
  | .runtimeError m => m
  | .fileNotFound m => m
  | .valueError m => m
  | .other m => m

/-- A filesystem as the set (list) of paths that exist. -/
abbrev FS := List String

/-- `os.path.exists` over the path-set filesystem model. -/
def pathExists (fs : FS) (p : String) : Bool := fs.contains p

/-- Last index of character `c` in the list, scanning with an accumulator. -/
def rfindAux (c : Char) : List Char → Nat → Option Nat → Option Nat
  | [], _, acc => acc
  | x :: xs, i, acc => rfindAux c xs (i + 1) (if x = c then some i else acc)

/-- Python `str.rfind` restricted to a single character (index of last occurrence). -/
def rfindChar (cs : List Char) (c : Char) : Option Nat := rfindAux c cs 0 none

/-- Whether some character in `cs` at an index in `[i, j)` differs from `'.'`. -/
def hasNonDot (cs : List Char) (i j : Nat) : Bool :=
  ((cs.drop i).take (j - i)).any (fun c => c ≠ '.')

/-- The root part of Python `os.path.splitext` (posix rules: the extension
starts at the last dot of the basename, unless the basename consists only of
leading dots up to that point). -/
def splitextRoot (p : String) : String :=
  let cs := p.toList
  let sepIndex : Int := match rfindChar cs '/' with
    | none => -1
    | some i => (i : Int)
  match rfindChar cs '.' with
  | none => p
  | some dotIndex =>
    if sepIndex < (dotIndex : Int) then
      if hasNonDot cs (sepIndex + 1).toNat dotIndex then String.mk (cs.take dotIndex)
      else p
    else p

/-- Substring test on character lists (`tok` occurs somewhere in the list). -/
def listHasTok : List Char → List Char → Bool
  | _, [] => true
  | [], _ :: _ => false
  | c :: cs, t :: ts => List.isPrefixOf (t :: ts) (c :: cs) || listHasTok cs (t :: ts)

/-- Whether string `tok` occurs as a substring of `s`. -/
def containsTok (s tok : String) : Bool := listHasTok s.toList tok.toList

end App

namespace App

/-! ## Asset Provisioner: `download_soundfont` (app.py lines 20-30) -/

def SOUNDFONT_URL : String :=
  "https://raw.githubusercontent.com/musescore/MuseScore/master/share/sound/FluidR3Mono_GM.sf3"

def SOUNDFONT_FILE : String := "FluidR3Mono_GM.sf3"

/-- An HTTP response: status code and body bytes. -/
structure HttpResponse where
  status : Nat
  body : List Nat
deriving DecidableEq, Repr

/-- The network: maps a URL to a response or a transport-level error message. -/
abbrev Net := String → Except String HttpResponse

/-- A filesystem with contents: file name paired with its bytes. -/
abbrev FilesFS := List (String × List Nat)

/-- `os.path.exists` over the content filesystem model. -/
def fileExistsF (fs : FilesFS) (name : String) : Bool := fs.any (fun p => p.1 = name)

/-- `open(name, "wb").write(bytes)`: replace or create the file. -/
def writeFileF (fs : FilesFS) (name : String) (bytes : List Nat) : FilesFS :=
  (name, bytes) :: fs.filter (fun p => p.1 ≠ name)

/-- Observable I/O events of the provisioner, for stating trace properties. -/
inductive DlEvent where
  | request (url : String)
  | progressReport (done total : Nat)
  | writeEvt (name : String) (bytes : List Nat)
deriving DecidableEq, Repr

/-- Number of HTTP requests in an event trace. -/
def countRequests (evs : List DlEvent) : Nat :=
  evs.countP (fun e => match e with | .request _ => true | _ => false)

/-- Number of incremental progress reports in an event trace. -/
def countProgress (evs : List DlEvent) : Nat :=
  evs.countP (fun e => match e with | .progressReport _ _ => true | _ => false)

/-- `download_soundfont` (app.py lines 20-30): skip when the file exists;
otherwise one blocking `requests.get`, `raise_for_status`, then a single
write of the whole body.  Returns the filesystem, the event trace, and
success or the surfaced error (`st.error` + `st.stop`). -/
def download_soundfont (net : Net) (fs : FilesFS) :
    FilesFS × List DlEvent × Except String Unit :=
  if fileExistsF fs SOUNDFONT_FILE then (fs, [], .ok ())
  else
    match net SOUNDFONT_URL with
    | .error e =>
        (fs, [.request SOUNDFONT_URL], .error ("Failed to download SoundFont: " ++ e))
    | .ok r =>
        if 400 ≤ r.status ∧ r.status < 600 then
          (fs, [.request SOUNDFONT_URL],
            .error ("Failed to download SoundFont: HTTP error " ++ toString r.status))
        else
          (writeFileF fs SOUNDFONT_FILE r.body,
            [.request SOUNDFONT_URL, .writeEvt SOUNDFONT_FILE r.body], .ok ())

/-! ## Library Relocator: `setup_oemer_patch` (app.py lines 32-64) -/

/-- A source file of the copied package: name and text content. -/
structure SrcFile where
  name : String
  content : String
deriving DecidableEq, Repr

/-- `os.path.abspath("oemer_local")` (a fixed path in the working directory). -/
def local_oemer_abs : String := "/mount/src/oemer_local"

/-- State touched by `setup_oemer_patch`: `sys.path`, the local copy at
`oemer_local/oemer` (`none` when the directory is absent), whether
`oemer_local` itself exists, and the installed package tree (`none` when
`importlib.util.find_spec("oemer")` fails). -/
structure PatchState where
  sysPath : List String
  localOemer : Option (List SrcFile)
  localDirExists : Bool
  systemOemer : Option (List SrcFile)
deriving DecidableEq, Repr

/-- `shutil.copytree(..., dirs_exist_ok=True)`: source files overwrite
same-named destination files; other destination files are kept. -/
def copytree (src dst : List SrcFile) : List SrcFile :=
  src ++ dst.filter (fun f => ¬ src.any (fun g => g.name = f.name))

/-- `setup_oemer_patch` (app.py lines 32-64): return if already on `sys.path`;
reuse an existing copy; otherwise locate the installed package, copy it into
the writable directory, and prepend the directory to `sys.path`.  No text
substitution is performed on the copied files. -/
def setup_oemer_patch (st : PatchState) : PyResult PatchState :=
  if st.sysPath.contains local_oemer_abs then .ok st
  else if st.localDirExists && st.localOemer.isSome then
    .ok { st with sysPath := local_oemer_abs :: st.sysPath }
  else
    match st.systemOemer with
    | none => .exn (.other "Critical: oemer library not found. Check requirements.txt.")
    | some tree =>
        .ok { st with
                localOemer := some (copytree tree (st.localOemer.getD [])),
                localDirExists := true,
                sysPath := local_oemer_abs :: st.sysPath }

/-! ## OMR Invoker: `MusicConverter.run_omr` (app.py lines 99-137) -/

/-- The global process state touched by `run_omr`: `sys.argv` and the
filesystem the engine writes into. -/
structure OmrState where
  argv : List String
  fs : FS
deriving DecidableEq, Repr

/-- The message of the `FileNotFoundError` raised when no output is found. -/
def noOutputMsg : String :=
  "AI finished but generated no MusicXML file. The image might be too complex or blurry."

/-- The engine `oemer.ete.main`: reads `sys.argv`, transforms the filesystem
(it writes its output file), and finishes normally or raises. -/
abbrev Engine := List String → FS → FS × PyResult Unit

/-- The two `except` clauses around the engine call (app.py lines 115-123):
`SystemExit` with code 0 is swallowed, any other `SystemExit` code becomes a
`RuntimeError` carrying the code, any other exception becomes a
`RuntimeError` carrying its message. -/
def handleEngine : PyResult Unit → PyResult Unit
  | .ok _ => .ok ()
  | .exn (.systemExit code) =>
      if code = some 0 then .ok ()
      else .exn (.runtimeError ("OMR Engine exited with error code " ++ pyStrCode code))
  | .exn e => .exn (.runtimeError ("OMR Engine crashed: " ++ excMsg e))

/-- Output discovery (app.py lines 127-137): probe `image_path + ".musicxml"`,
then the path with its extension replaced by `".musicxml"`; raise
`FileNotFoundError` when neither exists. -/
def discoverOutput (fs : FS) (image_path : String) : PyResult String :=
  let expected_output := image_path ++ ".musicxml"
  if pathExists fs expected_output then .ok expected_output
  else
    let no_ext_path := splitextRoot image_path ++ ".musicxml"
    if pathExists fs no_ext_path then .ok no_ext_path
    else .exn (.fileNotFound noOutputMsg)

/-- `run_omr` (app.py lines 99-137): save `sys.argv`, overwrite it with
`["oemer", image_path]`, call the engine, translate its outcome with the
`except` clauses, restore `sys.argv` in the `finally` block, and on success
discover the output file. -/
def run_omr (main : Engine) (s : OmrState) (image_path : String) :
    OmrState × PyResult String :=
  let original_argv := s.argv
  let s1 : OmrState := { s with argv := ["oemer", image_path] }
  let step := main s1.argv s1.fs
  let r := handleEngine step.2
  let s2 : OmrState := { argv := original_argv, fs := step.1 }
  match r with
  | .exn e => (s2, .exn e)
  | .ok _ => (s2, discoverOutput s2.fs image_path)

/-- The pipeline tail (app.py lines 193-196): `generate_audio` runs only when
`run_omr` returned a path; an exception propagates past it. -/
def pipeline (main : Engine) (ga : String → PyResult String)
    (s : OmrState) (img : String) : OmrState × PyResult String :=
  match run_omr main s img with
  | (s2, .ok xml) => (s2, ga xml)
  | (s2, .exn e) => (s2, .exn e)

/-! ## Image Normalizer: `MusicConverter.prepare_image` (app.py lines 73-97) -/

/-- PIL color modes relevant here. -/
inductive ColorMode where
  | RGB | RGBA | L | P | CMYK | LA | I
deriving DecidableEq, Repr

/-- A PIL image: color mode plus abstract pixel content. -/
structure PILImage where
  mode : ColorMode
  pix : Nat
deriving DecidableEq, Repr

/-- `img.convert(m)`: an image with the requested mode. -/
def convertMode (i : PILImage) (m : ColorMode) : PILImage := { i with mode := m }

/-- Python `str.lower` on one character (ASCII case mapping). -/
def pyLowerChar (c : Char) : Char :=
  if 'A' ≤ c ∧ c ≤ 'Z' then Char.ofNat (c.toNat + 32) else c

/-- Python `str.lower` (ASCII case mapping suffices for filenames here). -/
def pyLower (s : String) : String := String.mk (s.toList.map pyLowerChar)

/-- Python `str.endswith`. -/
def pyEndsWith (s suf : String) : Bool := List.isSuffixOf suf.toList s.toList

/-- `os.path.join` for a relative second component. -/
def pathJoin (d n : String) : String :=
  if pyEndsWith d "/" then d ++ n else d ++ "/" ++ n

/-- `pdf2image.convert_from_path(path, first_page, last_page, dpi)`: render
the 1-indexed inclusive page range at the given DPI.  `pages` is the PDF's
page list and `render` the rasterizer. -/
def convert_from_path (pages : List Nat) (first_page last_page dpi : Nat)
    (render : Nat → Nat → PILImage) : List PILImage :=
  ((pages.drop (first_page - 1)).take (last_page + 1 - first_page)).map
    (fun p => render p dpi)

/-- What `prepare_image` returns together with the image it saved there. -/
structure PrepResult where
  path : String
  saved : PILImage
deriving DecidableEq, Repr

/-- The branching half of `prepare_image` (app.py lines 77-90): route on
`file_name.lower().endswith(".pdf")`; for a PDF rasterize pages 1..1 at
300 DPI and take `images[0]` (an `IndexError` when the list is empty);
otherwise open the uploaded bytes as an image.  `decodePdf` turns the
uploaded bytes into PDF pages, `render` rasterizes one page at a DPI,
`imageOpen` decodes raster bytes. -/
def loadImage (decodePdf : List Nat → List Nat) (render : Nat → Nat → PILImage)
    (imageOpen : List Nat → PILImage)
    (file_bytes : List Nat) (file_name : String) : PyResult PILImage :=
  if pyEndsWith (pyLower file_name) ".pdf" then
    match convert_from_path (decodePdf file_bytes) 1 1 300 render with
    | [] => .exn (.other "list index out of range")
    | i :: _ => .ok i
  else
    .ok (imageOpen file_bytes)

/-- `prepare_image` (app.py lines 73-97): load the image per the branch
above, convert it to RGB when its mode differs, and save it as PNG at
`temp_dir/input_score.png`. -/
def prepare_image (decodePdf : List Nat → List Nat) (render : Nat → Nat → PILImage)
    (imageOpen : List Nat → PILImage)
    (file_bytes : List Nat) (file_name : String) (temp_dir : String) :
    PyResult PrepResult :=
  let output_path := pathJoin temp_dir "input_score.png"
  match loadImage decodePdf render imageOpen file_bytes file_name with
  | .exn e => .exn e
  | .ok img =>
    let img2 := if img.mode ≠ ColorMode.RGB then convertMode img ColorMode.RGB else img
    .ok ⟨output_path, img2⟩

/-! ## Audio Renderer: `MusicConverter.generate_audio` (app.py lines 139-163) -/

/-- `generate_audio` (app.py lines 139-163): derive the `.mid`, `.wav` and
`.mp3` paths by substring replacement; parse the MusicXML and write MIDI
(`parseWrite`; its `except Exception` clause collapses any `Exception` into
a `ValueError` that embeds the cause's message, while a `SystemExit` is not
an `Exception` in Python and propagates uncaught); check the soundfont
exists; synthesize (`midiToAudio`); transcode (`exportMp3`). -/
def generate_audio (parseWrite : String → String → PyResult Unit)
    (midiToAudio : String → String → PyResult Unit)
    (exportMp3 : String → String → PyResult Unit)
    (sfExists : Bool) (soundfont : String) (xml_path : String) : PyResult String :=
  let midi_path := xml_path.replace ".musicxml" ".mid"
  let wav_path := xml_path.replace ".musicxml" ".wav"
  let mp3_path := xml_path.replace ".musicxml" ".mp3"
  match parseWrite xml_path midi_path with
  | .exn (.systemExit c) => .exn (.systemExit c)
  | .exn e => .exn (.valueError ("Failed to parse music notation: " ++ excMsg e))
  | .ok _ =>
    if !sfExists then .exn (.fileNotFound ("SoundFont file missing: " ++ soundfont))
    else
      match midiToAudio midi_path wav_path with
      | .exn e => .exn e
      | .ok _ =>
        match exportMp3 wav_path mp3_path with
        | .exn e => .exn e
        | .ok _ => .ok mp3_path

end App

namespace App

/-- C1: after the engine runs, output discovery probes exactly two candidates
in order — `image_path ++ ".musicxml"` first, then the path with its
extension replaced by `".musicxml"` — returning the first that exists; when
neither exists `run_omr` raises a `FileNotFoundError` and the pipeline never
reaches `generate_audio` (its result is independent of the audio stage). -/
theorem C1_run_omr_output_discovery (fs : FS) (img : String) (s : OmrState)
    (main : Engine) (ga ga' : String → PyResult String) :
    (pathExists fs (img ++ ".musicxml") = true →
        discoverOutput fs img = .ok (img ++ ".musicxml"))
    ∧ (pathExists fs (img ++ ".musicxml") = false →
        pathExists fs (splitextRoot img ++ ".musicxml") = true →
        discoverOutput fs img = .ok (splitextRoot img ++ ".musicxml"))
    ∧ (pathExists fs (img ++ ".musicxml") = false →
        pathExists fs (splitextRoot img ++ ".musicxml") = false →
        discoverOutput fs img = .exn (.fileNotFound noOutputMsg)
        ∧ (main ["oemer", img] s.fs = (fs, .ok ()) →
            pipeline main ga s img = pipeline main ga' s img
            ∧ (pipeline main ga s img).2 = .exn (.fileNotFound noOutputMsg))) := by
  refine ⟨fun h1 => ?_, fun h1 h2 => ?_, fun h1 h2 => ⟨?_, fun hm => ?_⟩⟩
  · simp [discoverOutput, h1]
  · simp [discoverOutput, h1, h2]
  · simp [discoverOutput, h1, h2]
  · have hro : run_omr main s img
        = ({ argv := s.argv, fs := fs }, .exn (.fileNotFound noOutputMsg)) := by
      simp [run_omr, hm, handleEngine, discoverOutput, h1, h2]
    exact ⟨by simp [pipeline, hro], by simp [pipeline, hro]⟩

/-- Witness for C1 at concrete filesystems: both probe orders and the
no-output case, where the pipeline result ignores the audio stage. -/
theorem C1_run_omr_output_discovery_witness :
    discoverOutput ["x.png.musicxml"] "x.png" = .ok "x.png.musicxml"
    ∧ discoverOutput ["x.musicxml"] "x.png" = .ok "x.musicxml"
    ∧ discoverOutput [] "x.png" = .exn (.fileNotFound noOutputMsg)
    ∧ pipeline (fun _ fs => (fs, .ok ())) (fun x => .ok x) ⟨["app"], []⟩ "x.png"
      = pipeline (fun _ fs => (fs, .ok ())) (fun _ => .ok "zzz") ⟨["app"], []⟩ "x.png"
    ∧ (pipeline (fun _ fs => (fs, .ok ())) (fun x => .ok x) ⟨["app"], []⟩ "x.png").2
      = .exn (.fileNotFound noOutputMsg) := by
  have hA := C1_run_omr_output_discovery ["x.png.musicxml"] "x.png" ⟨["app"], []⟩
    (fun _ fs => (fs, .ok ())) (fun x => .ok x) (fun _ => .ok "zzz")
  have hB := C1_run_omr_output_discovery ["x.musicxml"] "x.png" ⟨["app"], []⟩
    (fun _ fs => (fs, .ok ())) (fun x => .ok x) (fun _ => .ok "zzz")
  have hC := C1_run_omr_output_discovery [] "x.png" ⟨["app"], []⟩
    (fun _ fs => (fs, .ok ())) (fun x => .ok x) (fun _ => .ok "zzz")
  refine ⟨hA.1 rfl, hB.2.1 rfl rfl, (hC.2.2 rfl rfl).1,
    ((hC.2.2 rfl rfl).2 rfl).1, ((hC.2.2 rfl rfl).2 rfl).2⟩

/-- C3: a `SystemExit` with code 0 from the engine is swallowed (`run_omr`
behaves exactly as on a normal return); a `SystemExit` with any other code
becomes a `RuntimeError` carrying that code; any other exception becomes a
`RuntimeError` carrying its message. -/
theorem C3_engine_exit_translation (s : OmrState) (img : String) (fs2 : FS)
    (c : Option Int) :
    (run_omr (fun _ _ => (fs2, .exn (.systemExit (some 0)))) s img
      = run_omr (fun _ _ => (fs2, .ok ())) s img)
    ∧ (c ≠ some 0 →
        run_omr (fun _ _ => (fs2, .exn (.systemExit c))) s img
          = ({ argv := s.argv, fs := fs2 },
             .exn (.runtimeError ("OMR Engine exited with error code " ++ pyStrCode c))))
    ∧ (∀ e : PyExc, (∀ c', e ≠ .systemExit c') →
        run_omr (fun _ _ => (fs2, .exn e)) s img
          = ({ argv := s.argv, fs := fs2 },
             .exn (.runtimeError ("OMR Engine crashed: " ++ excMsg e)))) := by
  refine ⟨rfl, fun hc => ?_, fun e he => ?_⟩
  · simp [run_omr, handleEngine, hc]
  · cases e with
    | systemExit c' => exact absurd rfl (he c')
    | runtimeError m => rfl
    | fileNotFound m => rfl
    | valueError m => rfl
    | other m => rfl

/-- Witness for C3 at concrete inputs: exit code 2 and a crash message. -/
theorem C3_engine_exit_translation_witness :
    (run_omr (fun _ _ => ((["o.musicxml"] : FS), .exn (.systemExit (some 0)))) ⟨["app"], []⟩ "o"
      = run_omr (fun _ _ => ((["o.musicxml"] : FS), .ok ())) ⟨["app"], []⟩ "o")
    ∧ run_omr (fun _ _ => (([] : FS), .exn (.systemExit (some 2)))) ⟨["app"], []⟩ "o"
      = (⟨["app"], []⟩, .exn (.runtimeError "OMR Engine exited with error code 2"))
    ∧ run_omr (fun _ _ => (([] : FS), .exn (.other "model file corrupt"))) ⟨["app"], []⟩ "o"
      = (⟨["app"], []⟩, .exn (.runtimeError "OMR Engine crashed: model file corrupt")) := by
  have h0 := C3_engine_exit_translation ⟨["app"], []⟩ "o" ["o.musicxml"] (some 2)
  have h := C3_engine_exit_translation ⟨["app"], []⟩ "o" [] (some 2)
  exact ⟨h0.1, h.2.1 (by decide), h.2.2 (.other "model file corrupt") (fun c' hh => by cases hh)⟩

/-- C4: `run_omr` overwrites the global argument list with
`["oemer", image_path]` for the engine call (the engine observes exactly that
list) and the `finally` block restores the original list on every exit path,
whatever the engine's outcome. -/
theorem C4_argv_set_and_restored (main : Engine) (s : OmrState) (img : String) :
    (run_omr main s img).1.argv = s.argv
    ∧ run_omr main s img = run_omr (fun _ => main ["oemer", img]) s img := by
  constructor
  · unfold run_omr
    cases h : handleEngine (main ["oemer", img] s.fs).2 <;> simp [h]
  · rfl

end App

namespace App

/-- C2 counterexample: on a fresh state whose installed tree holds a file
containing the quoted GPU execution-provider token, `setup_oemer_patch`
copies the file verbatim — the copied file still contains the token, so no
token-removal pass exists. -/
theorem C2_copied_file_keeps_gpu_token_counterexample :
    setup_oemer_patch ⟨["p"], none, false,
        some [⟨"ete.py", "providers = [\"CUDAExecutionProvider\"]"⟩]⟩
      = .ok ⟨[local_oemer_abs, "p"],
          some [⟨"ete.py", "providers = [\"CUDAExecutionProvider\"]"⟩], true,
          some [⟨"ete.py", "providers = [\"CUDAExecutionProvider\"]"⟩]⟩
    ∧ containsTok "providers = [\"CUDAExecutionProvider\"]" "CUDAExecutionProvider"
        = true := by
  exact ⟨rfl, rfl⟩

/-- C2 amended: after copying the installed OMR package tree into the
writable working directory, `setup_oemer_patch` leaves every copied file
byte-identical to its system original and only prepends the local directory
to the module search path — no scan or token removal is performed, so a
copied file containing the GPU token still contains it after setup. -/
theorem C2_setup_copies_unmodified (sp : List String) (tree : List SrcFile) :
    sp.contains local_oemer_abs = false →
    setup_oemer_patch ⟨sp, none, false, some tree⟩
      = .ok ⟨local_oemer_abs :: sp, some tree, true, some tree⟩ := by
  intro h
  simp at h
  simp [setup_oemer_patch, h, copytree]

/-- Witness for C2's amended statement: a one-file tree holding the GPU
token is copied unchanged. -/
theorem C2_setup_copies_unmodified_witness :
    setup_oemer_patch ⟨["p"], none, false, some [⟨"a.py", "CUDAExecutionProvider"⟩]⟩
      = .ok ⟨[local_oemer_abs, "p"], some [⟨"a.py", "CUDAExecutionProvider"⟩], true,
          some [⟨"a.py", "CUDAExecutionProvider"⟩]⟩ :=
  C2_setup_copies_unmodified ["p"] [⟨"a.py", "CUDAExecutionProvider"⟩] rfl

/-- C5: provisioning is idempotent — when the soundfont file already exists
at its fixed path, `download_soundfont` makes zero network requests and
returns the filesystem unchanged; moreover the destination-existence check
is the only condition deciding whether a request happens. -/
theorem C5_provision_idempotent (net : Net) (fs : FilesFS) :
    (fileExistsF fs SOUNDFONT_FILE = true →
        download_soundfont net fs = (fs, [], .ok ()))
    ∧ (countRequests (download_soundfont net fs).2.1 = 0
        ↔ fileExistsF fs SOUNDFONT_FILE = true) := by
  constructor
  · intro h
    simp [download_soundfont, h]
  · cases h : fileExistsF fs SOUNDFONT_FILE with
    | true => simp [download_soundfont, h, countRequests]
    | false =>
      simp only [download_soundfont, h, if_neg Bool.false_ne_true]
      cases net SOUNDFONT_URL with
      | error e => simp [countRequests]
      | ok r =>
        by_cases hs : 400 ≤ r.status ∧ r.status < 600 <;>
          simp [hs, countRequests]

/-- Witness for C5: with the soundfont present, the provisioner is a no-op
with an empty event trace. -/
theorem C5_provision_idempotent_witness :
    download_soundfont (fun _ => .error "network down") [(SOUNDFONT_FILE, [1, 2])]
      = ([(SOUNDFONT_FILE, [1, 2])], [], .ok ())
    ∧ countRequests (download_soundfont (fun _ => .error "network down")
        [(SOUNDFONT_FILE, [1, 2])]).2.1 = 0 := by
  have h := C5_provision_idempotent (fun _ => .error "network down")
    [(SOUNDFONT_FILE, [1, 2])]
  exact ⟨h.1 rfl, h.2.mpr rfl⟩

/-- C6 counterexample: a fresh successful download performs a single request
and a single whole-body write with zero incremental progress events, and a
failed (404) download leaves the filesystem unchanged — no partially written
destination file exists on the failure paths. -/
theorem C6_no_streaming_counterexample :
    download_soundfont (fun _ => .ok ⟨200, [1, 2, 3]⟩) []
      = ([(SOUNDFONT_FILE, [1, 2, 3])],
         [.request SOUNDFONT_URL, .writeEvt SOUNDFONT_FILE [1, 2, 3]], .ok ())
    ∧ countProgress [DlEvent.request SOUNDFONT_URL,
        DlEvent.writeEvt SOUNDFONT_FILE [1, 2, 3]] = 0
    ∧ download_soundfont (fun _ => .ok ⟨404, [9]⟩) [("other.txt", [7])]
      = ([("other.txt", [7])], [.request SOUNDFONT_URL],
         .error "Failed to download SoundFont: HTTP error 404") := by
  refine ⟨rfl, by decide, rfl⟩

/-- C6 amended: when the soundfont is absent, `download_soundfont` makes one
blocking request and, on success, writes the whole body to the destination
in a single step, never emitting incremental progress reports; a transport
error or a non-2xx status surfaces a "Failed to download SoundFont" error
and leaves the filesystem unchanged (the write happens only after a
successful response, so those failures leave no partial file behind). -/
theorem C6_download_single_request (net : Net) (fs : FilesFS) :
    countProgress (download_soundfont net fs).2.1 = 0
    ∧ (fileExistsF fs SOUNDFONT_FILE = false →
        (∀ e, net SOUNDFONT_URL = .error e →
            download_soundfont net fs
              = (fs, [.request SOUNDFONT_URL],
                 .error ("Failed to download SoundFont: " ++ e)))
        ∧ (∀ r, net SOUNDFONT_URL = .ok r → 400 ≤ r.status → r.status < 600 →
            download_soundfont net fs
              = (fs, [.request SOUNDFONT_URL],
                 .error ("Failed to download SoundFont: HTTP error "
                   ++ toString r.status)))
        ∧ (∀ r, net SOUNDFONT_URL = .ok r → ¬(400 ≤ r.status ∧ r.status < 600) →
            download_soundfont net fs
              = (writeFileF fs SOUNDFONT_FILE r.body,
                 [.request SOUNDFONT_URL, .writeEvt SOUNDFONT_FILE r.body],
                 .ok ()))) := by
  constructor
  · cases h : fileExistsF fs SOUNDFONT_FILE with
    | true => simp [download_soundfont, h, countProgress]
    | false =>
      simp only [download_soundfont, h, if_neg Bool.false_ne_true]
      cases net SOUNDFONT_URL with
      | error e => simp [countProgress]
      | ok r =>
        by_cases hs : 400 ≤ r.status ∧ r.status < 600 <;>
          simp [hs, countProgress]
  · intro h
    refine ⟨fun e he => ?_, fun r hr h4 h6 => ?_, fun r hr hs => ?_⟩
    · simp [download_soundfont, h, he]
    · simp [download_soundfont, h, hr, h4, h6]
    · simp [download_soundfont, h, hr, hs]

/-- Witness for C6's amended statement at a concrete network: each failure
shape leaves the filesystem unchanged, and a success writes in one step. -/
theorem C6_download_single_request_witness :
    countProgress (download_soundfont (fun _ => .ok ⟨200, [5]⟩) []).2.1 = 0
    ∧ download_soundfont (fun _ => .error "timeout") []
      = ([], [.request SOUNDFONT_URL], .error "Failed to download SoundFont: timeout")
    ∧ download_soundfont (fun _ => .ok ⟨500, [9]⟩) []
      = ([], [.request SOUNDFONT_URL],
         .error "Failed to download SoundFont: HTTP error 500")
    ∧ download_soundfont (fun _ => .ok ⟨200, [5]⟩) []
      = ([(SOUNDFONT_FILE, [5])],
         [.request SOUNDFONT_URL, .writeEvt SOUNDFONT_FILE [5]], .ok ()) := by
  have hOk := C6_download_single_request (fun _ => .ok ⟨200, [5]⟩) ([] : FilesFS)
  have hErr := C6_download_single_request (fun _ => .error "timeout") ([] : FilesFS)
  have h500 := C6_download_single_request (fun _ => .ok ⟨500, [9]⟩) ([] : FilesFS)
  refine ⟨hOk.1, (hErr.2 rfl).1 "timeout" rfl, ?_, ?_⟩
  · exact (h500.2 rfl).2.1 ⟨500, [9]⟩ rfl (by decide) (by decide)
  · exact (hOk.2 rfl).2.2 ⟨200, [5]⟩ rfl (by decide)

end App

namespace App

/-- C7: whenever `prepare_image` succeeds, the saved image's color mode is
RGB (alpha-carrying and other non-RGB modes are converted before saving)
and its path is the fixed `temp_dir/input_score.png`. -/
theorem C7_output_always_rgb (decodePdf : List Nat → List Nat)
    (render : Nat → Nat → PILImage) (imageOpen : List Nat → PILImage)
    (bytes : List Nat) (name dir : String) (r : PrepResult) :
    prepare_image decodePdf render imageOpen bytes name dir = .ok r →
    r.saved.mode = ColorMode.RGB ∧ r.path = pathJoin dir "input_score.png" := by
  intro h
  unfold prepare_image at h
  cases hl : loadImage decodePdf render imageOpen bytes name with
  | exn e => rw [hl] at h; cases h
  | ok img =>
    rw [hl] at h
    cases h
    by_cases hm : img.mode = ColorMode.RGB <;> simp [hm, convertMode]

/-- Witness for C7: an RGBA raster upload is saved as RGB at the fixed
path. -/
theorem C7_output_always_rgb_witness :
    (⟨"t/input_score.png", ⟨ColorMode.RGB, 3⟩⟩ : PrepResult).saved.mode = ColorMode.RGB
    ∧ (⟨"t/input_score.png", ⟨ColorMode.RGB, 3⟩⟩ : PrepResult).path
      = pathJoin "t" "input_score.png" :=
  C7_output_always_rgb (fun _ => []) (fun _ _ => ⟨.RGB, 0⟩) (fun _ => ⟨.RGBA, 3⟩)
    [1] "a.png" "t" ⟨"t/input_score.png", ⟨.RGB, 3⟩⟩ rfl

/-- C8: for a PDF upload, `prepare_image` rasterizes exactly the first page
at the fixed 300 DPI — its result is unchanged by the remaining pages, and
the page range handed to the rasterizer is pages 1..1. -/
theorem C8_pdf_first_page_only (render : Nat → Nat → PILImage)
    (imageOpen : List Nat → PILImage) (bytes : List Nat) (name dir : String)
    (p : Nat) (rest rest' : List Nat) :
    pyEndsWith (pyLower name) ".pdf" = true →
    prepare_image (fun _ => p :: rest) render imageOpen bytes name dir
      = prepare_image (fun _ => p :: rest') render imageOpen bytes name dir
    ∧ prepare_image (fun _ => p :: rest) render imageOpen bytes name dir
      = .ok ⟨pathJoin dir "input_score.png",
          if (render p 300).mode ≠ ColorMode.RGB then
            convertMode (render p 300) ColorMode.RGB
          else render p 300⟩
    ∧ convert_from_path (p :: rest) 1 1 300 render = [render p 300] := by
  intro hpdf
  have hc : ∀ l : List Nat, convert_from_path (p :: l) 1 1 300 render
      = [render p 300] := by
    intro l; simp [convert_from_path]
  refine ⟨?_, ?_, hc rest⟩
  · simp [prepare_image, loadImage, hpdf, hc]
  · simp [prepare_image, loadImage, hpdf, hc]

/-- Witness for C8: a two-page PDF named with an uppercase extension behaves
exactly as its one-page truncation; the result renders page 4 at 300 DPI. -/
theorem C8_pdf_first_page_only_witness :
    prepare_image (fun _ => [4, 9]) (fun q d => ⟨ColorMode.RGBA, q * 1000 + d⟩)
        (fun _ => ⟨ColorMode.RGB, 0⟩) [1] "Score.PDF" "t"
      = prepare_image (fun _ => [4]) (fun q d => ⟨ColorMode.RGBA, q * 1000 + d⟩)
        (fun _ => ⟨ColorMode.RGB, 0⟩) [1] "Score.PDF" "t"
    ∧ prepare_image (fun _ => [4, 9]) (fun q d => ⟨ColorMode.RGBA, q * 1000 + d⟩)
        (fun _ => ⟨ColorMode.RGB, 0⟩) [1] "Score.PDF" "t"
      = .ok ⟨"t/input_score.png", ⟨ColorMode.RGB, 4300⟩⟩
    ∧ convert_from_path [4, 9] 1 1 300 (fun q d => ⟨ColorMode.RGBA, q * 1000 + d⟩)
      = [⟨ColorMode.RGBA, 4300⟩] := by
  have h := C8_pdf_first_page_only (fun q d => ⟨ColorMode.RGBA, q * 1000 + d⟩)
    (fun _ => ⟨ColorMode.RGB, 0⟩) [1] "Score.PDF" "t" 4 [9] [] rfl
  exact ⟨h.1, h.2.1, h.2.2⟩

/-- C9 counterexample: a parse failure's surfaced error is not a fixed
generic message — it embeds the underlying cause's text (distinct causes
yield distinct messages), so the cause is carried, not discarded. -/
theorem C9_parse_error_carries_cause_counterexample :
    generate_audio (fun _ _ => .exn (.other "bad beam at measure 7"))
        (fun _ _ => .ok ()) (fun _ _ => .ok ()) true "sf" "a.musicxml"
      = .exn (.valueError "Failed to parse music notation: bad beam at measure 7")
    ∧ containsTok "Failed to parse music notation: bad beam at measure 7"
        "bad beam at measure 7" = true
    ∧ generate_audio (fun _ _ => .exn (.other "bad beam at measure 7"))
        (fun _ _ => .ok ()) (fun _ _ => .ok ()) true "sf" "a.musicxml"
      ≠ generate_audio (fun _ _ => .exn (.other "other cause"))
        (fun _ _ => .ok ()) (fun _ _ => .ok ()) true "sf" "a.musicxml" := by
  refine ⟨rfl, rfl, by decide⟩

/-- C9 amended: every `Exception`-level failure from the notation-parse /
MIDI-write step (anything except a `SystemExit`, which Python's
`except Exception` does not catch and therefore propagates) is collapsed
into a single `ValueError` whose message is the fixed prefix
"Failed to parse music notation: " followed by the cause's own message —
the exception type is collapsed but the underlying cause's text is carried
in the surfaced error — independently of the downstream synthesis and
transcoding steps. -/
theorem C9_parse_failure_translation (e : PyExc)
    (midiToAudio exportMp3 : String → String → PyResult Unit)
    (sf : Bool) (sfname xml : String) :
    ((∀ c, e ≠ .systemExit c) →
        generate_audio (fun _ _ => .exn e) midiToAudio exportMp3 sf sfname xml
          = .exn (.valueError ("Failed to parse music notation: " ++ excMsg e)))
    ∧ (∀ c, generate_audio (fun _ _ => .exn (.systemExit c)) midiToAudio exportMp3
          sf sfname xml
        = .exn (.systemExit c)) := by
  constructor
  · intro hne
    cases e with
    | systemExit c => exact absurd rfl (hne c)
    | runtimeError m => rfl
    | fileNotFound m => rfl
    | valueError m => rfl
    | other m => rfl
  · intro c; rfl

/-- Witness for C9's amended statement: a concrete parse cause is embedded
in the surfaced ValueError, and a concrete SystemExit propagates uncaught. -/
theorem C9_parse_failure_translation_witness :
    generate_audio (fun _ _ => .exn (.other "unclosed tuplet")) (fun _ _ => .ok ())
        (fun _ _ => .ok ()) true "sf" "a.musicxml"
      = .exn (.valueError "Failed to parse music notation: unclosed tuplet")
    ∧ generate_audio (fun _ _ => .exn (.systemExit (some 3))) (fun _ _ => .ok ())
        (fun _ _ => .ok ()) true "sf" "a.musicxml"
      = .exn (.systemExit (some 3)) := by
  have h := C9_parse_failure_translation (.other "unclosed tuplet")
    (fun _ _ => .ok ()) (fun _ _ => .ok ()) true "sf" "a.musicxml"
  exact ⟨h.1 (fun c hh => by cases hh), h.2 (some 3)⟩

/-- C10: `prepare_image` routes between the PDF branch and the raster
branch solely on whether the declared filename, lowercased, ends in
".pdf" — for every byte content, a `.pdf`-named upload never touches the
raster decoder and any other name never touches the PDF rasterizer. -/
theorem C10_routing_by_name_only (decodePdf decodePdf' : List Nat → List Nat)
    (render : Nat → Nat → PILImage) (imageOpen imageOpen' : List Nat → PILImage)
    (bytes : List Nat) (name dir : String) :
    (pyEndsWith (pyLower name) ".pdf" = true →
        prepare_image decodePdf render imageOpen bytes name dir
          = prepare_image decodePdf render imageOpen' bytes name dir)
    ∧ (pyEndsWith (pyLower name) ".pdf" = false →
        prepare_image decodePdf render imageOpen bytes name dir
          = prepare_image decodePdf' render imageOpen bytes name dir) := by
  constructor <;> intro h <;> simp [prepare_image, loadImage, h]

/-- Witness for C10: raster bytes named `photo.PDF` take the PDF branch (the
raster decoder is irrelevant), and the same bytes named `score.png` take the
raster branch (the PDF decoder is irrelevant). -/
theorem C10_routing_by_name_only_witness :
    prepare_image (fun _ => [2]) (fun q d => ⟨ColorMode.L, q + d⟩)
        (fun _ => ⟨ColorMode.RGB, 1⟩) [7] "photo.PDF" "t"
      = prepare_image (fun _ => [2]) (fun q d => ⟨ColorMode.L, q + d⟩)
        (fun _ => ⟨ColorMode.RGB, 99⟩) [7] "photo.PDF" "t"
    ∧ prepare_image (fun _ => [2]) (fun q d => ⟨ColorMode.L, q + d⟩)
        (fun _ => ⟨ColorMode.RGB, 1⟩) [7] "score.png" "t"
      = prepare_image (fun _ => [3]) (fun q d => ⟨ColorMode.L, q + d⟩)
        (fun _ => ⟨ColorMode.RGB, 1⟩) [7] "score.png" "t" := by
  have hA := C10_routing_by_name_only (fun _ => [2]) (fun _ => [2])
    (fun q d => ⟨ColorMode.L, q + d⟩) (fun _ => ⟨ColorMode.RGB, 1⟩)
    (fun _ => ⟨ColorMode.RGB, 99⟩) [7] "photo.PDF" "t"
  have hB := C10_routing_by_name_only (fun _ => [2]) (fun _ => [3])
    (fun q d => ⟨ColorMode.L, q + d⟩) (fun _ => ⟨ColorMode.RGB, 1⟩)
    (fun _ => ⟨ColorMode.RGB, 1⟩) [7] "score.png" "t"
  exact ⟨hA.1 rfl, hB.2 rfl⟩

end App
